import Mathlib

/- Verification of the Radarr MCP server (radarr-mcp-server.py).

   The server is a stateless translator: each tool handler validates and
   defaults its arguments, issues one or more upstream HTTP calls through
   make_radarr_request, reshapes the JSON responses, and returns a result
   dictionary that contains either success: true plus payload fields or an
   error string (every handler body is wrapped in try/except).

   Shallow embedding conventions:
   - Each upstream JSON payload is a structure of optional fields; dict.get
     with no default becomes an Option field, dict.get with a default
     becomes Option.getD at the use site, and bracket access (which the
     code only performs on fields the upstream API always provides) becomes
     a non-optional field.
   - Each handler is a pure function from an oracle describing the upstream
     responses (Except String models: error e is a raised exception whose
     str is e, caught by the except block of the handler) to the result
     envelope; handlers whose claims concern the calls they issue also
     return the list of requests sent upstream.
   - Python truthiness tests on optional arguments are embedded explicitly
     (optIntTruthy, optStrTruthy, Json.truthy).
   - Numeric JSON values are modelled as Int, strings as String; string
     slicing s[:n] is pySlice. -/

set_option linter.unusedVariables false
set_option maxRecDepth 8000

/-- Result envelope of every tool handler: the Python dict either carries
    success: true together with the payload fields (ok) or an error message
    string (err). -/
inductive ToolResult (α : Type) where
  | ok (payload : α)
  | err (msg : String)

def ToolResult.isOk {α : Type} : ToolResult α → Bool
  | .ok _ => true
  | .err _ => false

def ToolResult.isErr {α : Type} : ToolResult α → Bool
  | .ok _ => false
  | .err _ => true

/-- An upstream HTTP request as built by make_radarr_request: the endpoint
    string (path plus query) and the HTTP method. -/
structure Request where
  endpoint : String
  method : String
deriving Repr, DecidableEq

/-- Generic JSON value, used for payload fields the handlers pass through
    without inspecting them. -/
inductive Json where
  | null
  | bool (b : Bool)
  | num (n : Int)
  | str (s : String)
  | arr (xs : List Json)
  | obj (kvs : List (String × Json))

/-- Python truthiness of a JSON value (None, False, 0, empty string, empty
    list and empty dict are falsy). -/
def Json.truthy : Json → Bool
  | .null => false
  | .bool b => b
  | .num n => n != 0
  | .str s => s != ""
  | .arr xs => !xs.isEmpty
  | .obj kvs => !kvs.isEmpty

/-- Python truthiness of an optional integer argument: None and 0 are falsy. -/
def optIntTruthy : Option Int → Bool
  | some n => n != 0
  | none => false

/-- Python truthiness of an optional string argument: None and the empty
    string are falsy. -/
def optStrTruthy : Option String → Bool
  | some s => s != ""
  | none => false

/-- Python f-string rendering of an optional value (None renders as the
    string None). -/
def optIntStr : Option Int → String
  | some n => toString n
  | none => "None"

def optStrOrNone : Option String → String
  | some s => s
  | none => "None"

/-- Python string slicing s[:n]. -/
def pySlice (s : String) (n : Nat) : String :=
  String.mk (s.data.take n)

/-- The truncation idiom used by the handlers:
    s[:n] + "..." if len(s) > n else s. -/
def pyTruncate (s : String) (n : Nat) : String :=
  if s.length > n then pySlice s n ++ "..." else s

/- Upstream record shapes (fields the handlers read). -/

structure ImageRec where
  url : Option String

structure GenreRec where
  name : Option String

structure QualityInner where
  id : Option Int
  name : Option String

structure QualityRec where
  quality : Option QualityInner

/-- A JSON object of which the handlers only read the name field, e.g. the
    qualityProfile or cutoff sub-objects. -/
structure NamedRec where
  name : Option String

structure MovieFileRec where
  id : Option Int
  relativePath : Option String
  size : Option Int
  dateAdded : Option String
  quality : Option QualityRec
  mediaInfo : Option Json

/-- An upstream movie record (also used for lookup results and calendar
    entries, which carry the same fields). -/
structure Movie where
  id : Option Int
  title : Option String
  year : Option Int
  overview : Option String
  tmdbId : Option Int
  imdbId : Option String
  titleSlug : Option String
  runtime : Option Int
  status : Option String
  monitored : Option Bool
  hasFile : Option Bool
  qualityProfileId : Option Int
  sizeOnDisk : Option Int
  rootFolderPath : Option String
  images : Option (List ImageRec)
  genres : Option (List GenreRec)
  ratings : Option Json
  qualityProfile : Option NamedRec
  movieFile : Option MovieFileRec
  physicalRelease : Option String
  digitalRelease : Option String
  inCinemas : Option String

/-- A movie with every optional field absent, for building test inputs. -/
def emptyMovie : Movie :=
  { id := none, title := none, year := none, overview := none,
    tmdbId := none, imdbId := none, titleSlug := none, runtime := none,
    status := none, monitored := none, hasFile := none,
    qualityProfileId := none, sizeOnDisk := none, rootFolderPath := none,
    images := none, genres := none, ratings := none, qualityProfile := none,
    movieFile := none, physicalRelease := none, digitalRelease := none,
    inCinemas := none }

structure Release where
  guid : Option String
  title : Option String
  size : Option Int
  age : Option Int
  seeders : Option Int
  leechers : Option Int
  quality : Option QualityRec
  indexer : Option String
  downloadUrl : Option String
  approved : Option Bool
  rejections : Option (List String)

def emptyRelease : Release :=
  { guid := none, title := none, size := none, age := none, seeders := none,
    leechers := none, quality := none, indexer := none, downloadUrl := none,
    approved := none, rejections := none }

/-- An upstream quality profile. The id field is non-optional because
    add_movie reads it with bracket access (profiles[0]["id"]), which the
    upstream API always provides. -/
structure QualityProfile where
  id : Int
  name : Option String
  cutoff : Option NamedRec
  items : Option (List QualityRec)

/-- An upstream root folder. The path field is non-optional because
    add_movie reads it with bracket access (root_folders[0]["path"]). -/
structure RootFolder where
  id : Option Int
  path : String
  accessible : Option Bool
  freeSpace : Option Int
  unmappedFolders : Option (List Json)

structure Indexer where
  id : Option Int
  name : Option String
  implementation : Option String
  enableRss : Option Bool
  enableAutomaticSearch : Option Bool
  enableInteractiveSearch : Option Bool
  priority : Option Int
  tags : Option (List Int)

/- search_movies -/

structure SearchMoviesEntry where
  title : String
  year : Option Int
  overview : String
  tmdb_id : Option Int
  imdb_id : Option String
  runtime : Option Int
  status : Option String
  poster : Option String
  genres : List (Option String)
  ratings : Json

structure SearchMoviesPayload where
  results_count : Nat
  movies : List SearchMoviesEntry

/-- Reshaping of one lookup result inside search_movies. -/
def processSearchMovie (movie : Movie) : SearchMoviesEntry :=
  { title := movie.title.getD "Unknown",
    year := movie.year,
    overview := pyTruncate (movie.overview.getD "") 200,
    tmdb_id := movie.tmdbId,
    imdb_id := movie.imdbId,
    runtime := movie.runtime,
    status := movie.status,
    poster := match movie.images with
      | some (img :: _) => img.url
      | _ => none,
    genres := (movie.genres.getD []).map (fun g => g.name),
    ratings := movie.ratings.getD (.obj []) }

/-- The search_movies tool. The oracle maps the lookup endpoint to the
    upstream response. The year is appended to the search term under the
    Python truthiness guard (None and 0 are falsy). -/
def search_movies (api : String → Except String (List Movie))
    (query : String) (year : Option Int) : ToolResult SearchMoviesPayload :=
  let search_term := if optIntTruthy year then query ++ " " ++ optIntStr year
    else query
  match api ("movie/lookup?term=" ++ search_term) with
  | .error e => .err e
  | .ok results =>
    let processed_results := (results.take 10).map processSearchMovie
    .ok { results_count := processed_results.length,
          movies := processed_results }

/- get_movies -/

structure GetMoviesFileInfo where
  relative_path : Option String
  size : Option Int
  quality : Option String

structure GetMoviesEntry where
  id : Option Int
  title : Option String
  year : Option Int
  status : Option String
  monitored : Option Bool
  has_file : Bool
  quality_profile : Option String
  size_on_disk : Int
  overview : String
  file_info : Option GetMoviesFileInfo

structure GetMoviesPayload where
  total_count : Nat
  movies : List GetMoviesEntry

/-- Reshaping of one library movie inside get_movies. -/
def processGetMovie (movie : Movie) : GetMoviesEntry :=
  { id := movie.id,
    title := movie.title,
    year := movie.year,
    status := movie.status,
    monitored := movie.monitored,
    has_file := movie.hasFile.getD false,
    quality_profile := (movie.qualityProfile.getD { name := none }).name,
    size_on_disk := movie.sizeOnDisk.getD 0,
    overview := pyTruncate (movie.overview.getD "") 100,
    file_info := match movie.movieFile with
      | some movie_file => some
          { relative_path := movie_file.relativePath,
            size := movie_file.size,
            quality := ((movie_file.quality.getD { quality := none }).quality.getD
              { id := none, name := none }).name }
      | none => none }

/-- The get_movies tool. The oracle is the response of the single GET movie
    call. The status and quality_profile_id filters are guarded by Python
    truthiness (if status / if quality_profile_id), the monitored filter by
    an explicit is-not-None test. -/
def get_movies (resp : Except String (List Movie)) (monitored : Option Bool)
    (status : Option String) (quality_profile_id : Option Int) :
    ToolResult GetMoviesPayload :=
  match resp with
  | .error e => .err e
  | .ok movies =>
    let movies := match monitored with
      | some mon => movies.filter (fun (m : Movie) => m.monitored == some mon)
      | none => movies
    let movies := if optStrTruthy status then
        movies.filter (fun (m : Movie) => m.status == status)
      else movies
    let movies := if optIntTruthy quality_profile_id then
        movies.filter (fun (m : Movie) => m.qualityProfileId == quality_profile_id)
      else movies
    let processed_movies := movies.map processGetMovie
    .ok { total_count := processed_movies.length, movies := processed_movies }

/-- The list of returned movie entries of a get_movies result (empty for an
    error result). -/
def moviesOf (r : ToolResult GetMoviesPayload) : List GetMoviesEntry :=
  match r with
  | .ok p => p.movies
  | .err _ => []

/- search_movie_releases -/

structure ReleaseEntry where
  guid : Option String
  title : Option String
  size : Option Int
  age : Option Int
  seeders : Option Int
  leechers : Option Int
  quality : Option String
  indexer : Option String
  download_url : Option String
  approved : Bool
  rejection_reasons : List String

structure ReleasesPayload where
  releases_count : Nat
  releases : List ReleaseEntry

/-- Reshaping of one release inside search_movie_releases. -/
def processRelease (release : Release) : ReleaseEntry :=
  { guid := release.guid,
    title := release.title,
    size := release.size,
    age := release.age,
    seeders := release.seeders,
    leechers := release.leechers,
    quality := ((release.quality.getD { quality := none }).quality.getD
      { id := none, name := none }).name,
    indexer := release.indexer,
    download_url := release.downloadUrl,
    approved := release.approved.getD false,
    rejection_reasons := release.rejections.getD [] }

/-- Sort key of the quality branch:
    x.get("quality", \x7b\x7d).get("quality", \x7b\x7d).get("id", 0). -/
def qualityIdOf (x : Release) : Int :=
  ((x.quality.getD { quality := none }).quality.getD
    { id := none, name := none }).id.getD 0

/-- The search_movie_releases tool. The oracle is the response of the
    single GET release call. list.sort(key=k, reverse=True) is the stable
    descending sort, embedded as mergeSort with the flipped comparison on
    the key. -/
def search_movie_releases (resp : Except String (List Release))
    (movie_id : Int) (sort_by : Option String) : ToolResult ReleasesPayload :=
  match resp with
  | .error e => .err e
  | .ok releases =>
    let releases :=
      if sort_by == some "seeders" then
        releases.mergeSort (fun a b => decide (b.seeders.getD 0 ≤ a.seeders.getD 0))
      else if sort_by == some "size" then
        releases.mergeSort (fun a b => decide (b.size.getD 0 ≤ a.size.getD 0))
      else if sort_by == some "quality" then
        releases.mergeSort (fun a b => decide (qualityIdOf b ≤ qualityIdOf a))
      else releases
    let processed_releases := (releases.take 20).map processRelease
    .ok { releases_count := processed_releases.length,
          releases := processed_releases }

/- manage_download_queue -/

structure QueueActionPayload where
  action : String
  queue_id : Int
  result : Json

/-- The manage_download_queue tool. The oracle maps each issued request to
    the upstream response (for the DELETE branches, make_radarr_request
    itself builds the success/status dict, modelled as the oracle response).
    The second component is the list of upstream requests issued. -/
def manage_download_queue (api : Request → Except String Json)
    (queue_id : Int) (action : String) (remove_from_client : Bool) :
    ToolResult QueueActionPayload × List Request :=
  if action == "remove" then
    let params := "removeFromClient=" ++ (if remove_from_client then "true" else "false")
    let req : Request := { endpoint := "queue/" ++ toString queue_id ++ "?" ++ params,
                           method := "DELETE" }
    match api req with
    | .ok result => (.ok { action := action, queue_id := queue_id, result := result }, [req])
    | .error e => (.err e, [req])
  else if action == "retry" then
    let req : Request := { endpoint := "queue/grab/" ++ toString queue_id,
                           method := "POST" }
    match api req with
    | .ok result => (.ok { action := action, queue_id := queue_id, result := result }, [req])
    | .error e => (.err e, [req])
  else if action == "ignore" then
    let req : Request := { endpoint := "queue/" ++ toString queue_id ++ "?removeFromClient=false",
                           method := "DELETE" }
    match api req with
    | .ok result => (.ok { action := action, queue_id := queue_id, result := result }, [req])
    | .error e => (.err e, [req])
  else
    (.err ("Invalid action: " ++ action ++
      ". Use \x27remove\x27, \x27retry\x27, or \x27ignore\x27"), [])

/- add_movie -/

/-- The movie dict POSTed by add_movie to the movie endpoint. -/
structure MovieData where
  title : Option String
  year : Option Int
  tmdbId : Option Int
  imdbId : Option String
  titleSlug : Option String
  images : List ImageRec
  runtime : Option Int
  overview : Option String
  genres : List GenreRec
  ratings : Json
  qualityProfileId : Int
  rootFolderPath : String
  monitored : Bool
  addOptionsSearchForMovie : Bool

/-- Construction of the movie dict inside add_movie from the lookup result
    and the resolved quality profile id and root folder path. -/
def buildMovieData (movie_lookup : Movie) (quality_profile_id : Int)
    (root_folder_path : String) (monitored search_on_add : Bool) : MovieData :=
  { title := movie_lookup.title,
    year := movie_lookup.year,
    tmdbId := movie_lookup.tmdbId,
    imdbId := movie_lookup.imdbId,
    titleSlug := movie_lookup.titleSlug,
    images := movie_lookup.images.getD [],
    runtime := movie_lookup.runtime,
    overview := movie_lookup.overview,
    genres := movie_lookup.genres.getD [],
    ratings := movie_lookup.ratings.getD (.obj []),
    qualityProfileId := quality_profile_id,
    rootFolderPath := root_folder_path,
    monitored := monitored,
    addOptionsSearchForMovie := search_on_add }

/-- The upstream calls add_movie can issue, in order. -/
inductive AddMovieCall where
  | lookup (endpoint : String)
  | qualityprofileList
  | rootfolderList
  | movieCreate (data : MovieData)

/-- Upstream oracle of add_movie. The lookup result is an Option because
    the handler tests the returned dict for truthiness (if not
    movie_lookup); none models an empty or missing lookup result. -/
structure AddMovieApi where
  movieLookupTmdb : String → Except String (Option Movie)
  qualityprofileList : Except String (List QualityProfile)
  rootfolderList : Except String (List RootFolder)
  moviePost : MovieData → Except String Movie

structure AddMoviePayload where
  id : Option Int
  title : Option String
  year : Option Int
  status : Option String
  monitored : Option Bool
  quality_profile : Option String
  root_folder : Option String

/-- The add_movie tool: lookup by TMDB id, conditionally fetch quality
    profiles and root folders for defaults (first entry, or 1 resp.
    /movies when the list is empty), then POST the movie. -/
def add_movie (api : AddMovieApi) (movie_id : String)
    (quality_profile_id : Option Int) (root_folder_path : Option String)
    (monitored : Bool) (search_on_add : Bool) :
    ToolResult AddMoviePayload × List AddMovieCall :=
  let lookupEndpoint := "movie/lookup/tmdb?tmdbId=" ++ movie_id
  match api.movieLookupTmdb lookupEndpoint with
  | .error e => (.err e, [.lookup lookupEndpoint])
  | .ok none =>
    (.err ("Movie with TMDB ID " ++ movie_id ++ " not found"), [.lookup lookupEndpoint])
  | .ok (some movie_lookup) =>
    let afterLookup : List AddMovieCall := [.lookup lookupEndpoint]
    let step2 : Except String (Int × List AddMovieCall) :=
      match quality_profile_id with
      | some q => .ok (q, afterLookup)
      | none =>
        match api.qualityprofileList with
        | .error e => .error e
        | .ok profiles =>
          .ok (match profiles with
            | p :: _ => p.id
            | [] => 1, afterLookup ++ [.qualityprofileList])
    match step2 with
    | .error e => (.err e, afterLookup ++ [.qualityprofileList])
    | .ok (qpid, calls2) =>
      let step3 : Except String (String × List AddMovieCall) :=
        match root_folder_path with
        | some p => .ok (p, calls2)
        | none =>
          match api.rootfolderList with
          | .error e => .error e
          | .ok root_folders =>
            .ok (match root_folders with
              | rf :: _ => rf.path
              | [] => "/movies", calls2 ++ [.rootfolderList])
      match step3 with
      | .error e => (.err e, calls2 ++ [.rootfolderList])
      | .ok (rfpath, calls3) =>
        let movie_data := buildMovieData movie_lookup qpid rfpath monitored search_on_add
        let calls4 := calls3 ++ [.movieCreate movie_data]
        match api.moviePost movie_data with
        | .error e => (.err e, calls4)
        | .ok result =>
          (.ok { id := result.id,
                 title := result.title,
                 year := result.year,
                 status := result.status,
                 monitored := result.monitored,
                 quality_profile := (result.qualityProfile.getD { name := none }).name,
                 root_folder := result.rootFolderPath }, calls4)

/- get_movie_details -/

structure FileDetails where
  id : Option Int
  relative_path : Option String
  size : Option Int
  date_added : Option String
  quality : QualityRec
  media_info : Json

/-- file_details of get_movie_details built from a movieFile record. -/
def buildFileDetails (movie_file : MovieFileRec) : FileDetails :=
  { id := movie_file.id,
    relative_path := movie_file.relativePath,
    size := movie_file.size,
    date_added := movie_file.dateAdded,
    quality := movie_file.quality.getD { quality := none },
    media_info := movie_file.mediaInfo.getD (.obj []) }

structure HistoryRec where
  eventType : Option String
  date : Option String
  quality : Option Json
  sourceTitle : Option String
  data : Option Json

structure HistoryResp where
  records : Option (List HistoryRec)

structure HistoryEntry where
  event_type : Option String
  date : Option String
  quality : Json
  source_title : Option String
  data : Json

structure MovieDetailsPayload where
  id : Option Int
  title : Option String
  year : Option Int
  overview : Option String
  status : Option String
  monitored : Option Bool
  has_file : Option Bool
  runtime : Option Int
  genres : List (Option String)
  ratings : Json
  quality_profile : NamedRec
  root_folder_path : Option String
  size_on_disk : Option Int
  tmdb_id : Option Int
  imdb_id : Option String
  file_details : Option FileDetails
  history : Option (List HistoryEntry)

structure MovieDetailsApi where
  movieGet : Except String Movie
  historyGet : Except String HistoryResp

/-- Reshaping of one history record inside get_movie_details. -/
def processHistoryRec (h : HistoryRec) : HistoryEntry :=
  { event_type := h.eventType,
    date := h.date,
    quality := h.quality.getD (.obj []),
    source_title := h.sourceTitle,
    data := h.data.getD (.obj []) }

/-- The get_movie_details tool: fetch the movie, optionally attach file
    details (guarded by include_files and the truthiness of movieFile) and
    the ten most recent history records (guarded by include_history, which
    triggers a second upstream call). The quality_profile field passes the
    qualityProfile sub-object through unchanged, modelled as Json. -/
def get_movie_details (api : MovieDetailsApi) (movie_id : Int)
    (include_files : Bool) (include_history : Bool) :
    ToolResult MovieDetailsPayload :=
  match api.movieGet with
  | .error e => .err e
  | .ok movie =>
    let result : MovieDetailsPayload :=
      { id := movie.id,
        title := movie.title,
        year := movie.year,
        overview := movie.overview,
        status := movie.status,
        monitored := movie.monitored,
        has_file := movie.hasFile,
        runtime := movie.runtime,
        genres := (movie.genres.getD []).map (fun g => g.name),
        ratings := movie.ratings.getD (.obj []),
        quality_profile := movie.qualityProfile.getD { name := none },
        root_folder_path := movie.rootFolderPath,
        size_on_disk := movie.sizeOnDisk,
        tmdb_id := movie.tmdbId,
        imdb_id := movie.imdbId,
        file_details := none,
        history := none }
    let result := if include_files then
        match movie.movieFile with
        | some movie_file =>
          { result with file_details := some (buildFileDetails movie_file) }
        | none => result
      else result
    if include_history then
      match api.historyGet with
      | .error e => .err e
      | .ok history =>
        let hist := ((history.records.getD []).take 10).map processHistoryRec
        .ok { result with history := some hist }
    else .ok result

/- download_release -/

/-- The body POSTed by download_release to the release endpoint. -/
structure DownloadData where
  guid : String
  movieId : Int

structure DownloadReleasePayload where
  message : String
  release : Json

/-- The download_release tool. The oracle maps the POSTed body to the
    upstream response, which is passed through unchanged. -/
def download_release (api : DownloadData → Except String Json)
    (release_guid : String) (movie_id : Int) : ToolResult DownloadReleasePayload :=
  let download_data : DownloadData := { guid := release_guid, movieId := movie_id }
  match api download_data with
  | .error e => .err e
  | .ok result => .ok { message := "Download started successfully", release := result }

/- get_download_queue -/

structure TitledRec where
  title : Option String

structure QueueItem where
  id : Option Int
  movie : Option TitledRec
  title : Option String
  size : Option Int
  sizeleft : Option Int
  status : Option String
  progress : Option Int
  estimatedCompletionTime : Option String
  quality : Option QualityRec
  protocol : Option String
  downloadClient : Option String
  outputPath : Option String
  statusMessages : Option (List TitledRec)

structure QueueResp where
  records : Option (List QueueItem)
  totalRecords : Option Int
  page : Option Int
  pageSize : Option Int

structure QueueEntry where
  id : Option Int
  movie_title : Option String
  title : Option String
  size : Option Int
  sizeleft : Option Int
  status : Option String
  progress : Int
  eta : Option String
  quality : Option String
  protocol : Option String
  download_client : Option String
  output_path : Option String
  status_messages : List (Option String)

structure QueuePayload where
  total_records : Int
  page : Int
  page_size : Int
  queue : List QueueEntry

/-- Reshaping of one queue record inside get_download_queue. -/
def processQueueItem (item : QueueItem) : QueueEntry :=
  { id := item.id,
    movie_title := (item.movie.getD { title := none }).title,
    title := item.title,
    size := item.size,
    sizeleft := item.sizeleft,
    status := item.status,
    progress := item.progress.getD 0,
    eta := item.estimatedCompletionTime,
    quality := ((item.quality.getD { quality := none }).quality.getD
      { id := none, name := none }).name,
    protocol := item.protocol,
    download_client := item.downloadClient,
    output_path := item.outputPath,
    status_messages := (item.statusMessages.getD []).map (fun msg => msg.title) }

/-- The get_download_queue tool. The oracle maps the queue endpoint
    (including the pagination and sort query parameters) to the response. -/
def get_download_queue (api : String → Except String QueueResp)
    (page : Int) (page_size : Int) (sort : Option String) : ToolResult QueuePayload :=
  match api ("queue?page=" ++ toString page ++ "&pageSize=" ++ toString page_size
      ++ "&sortKey=" ++ optStrOrNone sort) with
  | .error e => .err e
  | .ok queue =>
    .ok { total_records := queue.totalRecords.getD 0,
          page := queue.page.getD 1,
          page_size := queue.pageSize.getD page_size,
          queue := (queue.records.getD []).map processQueueItem }

/- get_system_defaults -/

structure QualityProfileEntry where
  id : Int
  name : Option String
  cutoff : Option String
  items : List (Option String)

structure RootFolderEntry where
  id : Option Int
  path : String
  accessible : Option Bool
  free_space : Option Int
  unmapped_folders : Nat

structure SystemDefaultsPayload where
  quality_profiles : List QualityProfileEntry
  root_folders : List RootFolderEntry

structure SystemDefaultsApi where
  qualityprofileList : Except String (List QualityProfile)
  rootfolderList : Except String (List RootFolder)

/-- The get_system_defaults tool: list quality profiles and root folders,
    flattening each profile cutoff/item names and counting unmapped
    folders. -/
def get_system_defaults (api : SystemDefaultsApi) : ToolResult SystemDefaultsPayload :=
  match api.qualityprofileList with
  | .error e => .err e
  | .ok profiles =>
    match api.rootfolderList with
    | .error e => .err e
    | .ok root_folders =>
      .ok { quality_profiles := profiles.map (fun p =>
              { id := p.id,
                name := p.name,
                cutoff := (p.cutoff.getD { name := none }).name,
                items := (p.items.getD []).map (fun item =>
                  (item.quality.getD { id := none, name := none }).name) }),
            root_folders := root_folders.map (fun rf =>
              { id := rf.id,
                path := rf.path,
                accessible := rf.accessible,
                free_space := rf.freeSpace,
                unmapped_folders := (rf.unmappedFolders.getD []).length }) }

/- get_wanted_movies -/

structure WantedResp where
  records : Option (List Movie)
  totalRecords : Option Int
  page : Option Int

structure WantedEntry where
  id : Option Int
  title : Option String
  year : Option Int
  status : Option String
  quality_profile : Option String
  size_on_disk : Option Int
  overview : String
  tmdb_id : Option Int
  imdb_id : Option String

structure WantedPayload where
  total_records : Int
  page : Int
  wanted_movies : List WantedEntry

/-- Reshaping of one wanted movie inside get_wanted_movies. -/
def processWantedMovie (movie : Movie) : WantedEntry :=
  { id := movie.id,
    title := movie.title,
    year := movie.year,
    status := movie.status,
    quality_profile := (movie.qualityProfile.getD { name := none }).name,
    size_on_disk := movie.sizeOnDisk,
    overview := pyTruncate (movie.overview.getD "") 100,
    tmdb_id := movie.tmdbId,
    imdb_id := movie.imdbId }

/-- The get_wanted_movies tool. The oracle is the response of the single
    wanted/missing call. -/
def get_wanted_movies (resp : Except String WantedResp)
    (page : Int) (page_size : Int) : ToolResult WantedPayload :=
  match resp with
  | .error e => .err e
  | .ok wanted =>
    .ok { total_records := wanted.totalRecords.getD 0,
          page := wanted.page.getD 1,
          wanted_movies := (wanted.records.getD []).map processWantedMovie }

/- manage_indexers -/

structure IndexerEntry where
  id : Option Int
  name : Option String
  implementation : Option String
  enable_rss : Option Bool
  enable_automatic_search : Option Bool
  enable_interactive_search : Option Bool
  priority : Option Int
  tags : List Int

/-- The distinct success payload shapes of manage_indexers, one per
    action branch. -/
inductive IndexersPayload where
  | listed (indexers : List IndexerEntry)
  | tested (test_result : Json)
  | added (indexer : Json)
  | updated (indexer : Json)
  | deleted

/-- Upstream oracle of manage_indexers, one field per endpoint the handler
    can hit. -/
structure IndexersApi where
  indexerList : Except String (List Indexer)
  indexerTest : String → Except String Json
  indexerAdd : Json → Except String Json
  indexerUpdate : String → Json → Except String Json
  indexerDelete : String → Except String Json

/-- Reshaping of one indexer inside the list branch of manage_indexers. -/
def processIndexer (idx : Indexer) : IndexerEntry :=
  { id := idx.id,
    name := idx.name,
    implementation := idx.implementation,
    enable_rss := idx.enableRss,
    enable_automatic_search := idx.enableAutomaticSearch,
    enable_interactive_search := idx.enableInteractiveSearch,
    priority := idx.priority,
    tags := idx.tags.getD [] }

/-- Python truthiness of an optional dict argument (None and an empty or
    otherwise falsy value are falsy). -/
def optJsonTruthy : Option Json → Bool
  | some j => j.truthy
  | none => false

/-- The manage_indexers tool. The action dispatch mirrors the Python
    elif chain, including the truthiness guards on indexer_id and
    indexer_data; the second component is the list of upstream requests
    issued. -/
def manage_indexers (api : IndexersApi) (action : String)
    (indexer_id : Option Int) (indexer_data : Option Json) :
    ToolResult IndexersPayload × List Request :=
  if action == "list" then
    let req : Request := { endpoint := "indexer", method := "GET" }
    match api.indexerList with
    | .ok indexers => (.ok (.listed (indexers.map processIndexer)), [req])
    | .error e => (.err e, [req])
  else if action == "test" && optIntTruthy indexer_id then
    let endpoint := "indexer/test/" ++ optIntStr indexer_id
    let req : Request := { endpoint := endpoint, method := "POST" }
    match api.indexerTest endpoint with
    | .ok result => (.ok (.tested result), [req])
    | .error e => (.err e, [req])
  else if action == "add" && optJsonTruthy indexer_data then
    let req : Request := { endpoint := "indexer", method := "POST" }
    match api.indexerAdd (indexer_data.getD .null) with
    | .ok result => (.ok (.added result), [req])
    | .error e => (.err e, [req])
  else if action == "update" && optIntTruthy indexer_id && optJsonTruthy indexer_data then
    let endpoint := "indexer/" ++ optIntStr indexer_id
    let req : Request := { endpoint := endpoint, method := "PUT" }
    match api.indexerUpdate endpoint (indexer_data.getD .null) with
    | .ok result => (.ok (.updated result), [req])
    | .error e => (.err e, [req])
  else if action == "delete" && optIntTruthy indexer_id then
    let endpoint := "indexer/" ++ optIntStr indexer_id
    let req : Request := { endpoint := endpoint, method := "DELETE" }
    match api.indexerDelete endpoint with
    | .ok result => (.ok .deleted, [req])
    | .error e => (.err e, [req])
  else
    (.err "Invalid action or missing required parameters", [])

/- get_calendar and its date arithmetic (datetime.strptime, timedelta,
   strftime with format %Y-%m-%d) -/

structure Date where
  year : Nat
  month : Nat
  day : Nat
deriving Repr, DecidableEq

def isLeapYear (y : Nat) : Bool :=
  (y % 4 == 0 && y % 100 != 0) || y % 400 == 0

def daysInMonth (y m : Nat) : Nat :=
  if m == 2 then (if isLeapYear y then 29 else 28)
  else if m == 4 || m == 6 || m == 9 || m == 11 then 30
  else 31

/-- The day after d in the proleptic Gregorian calendar. -/
def nextDay (d : Date) : Date :=
  if d.day < daysInMonth d.year d.month then { d with day := d.day + 1 }
  else if d.month < 12 then { year := d.year, month := d.month + 1, day := 1 }
  else { year := d.year + 1, month := 1, day := 1 }

def addDaysN : Date → Nat → Date
  | d, 0 => d
  | d, n + 1 => addDaysN (nextDay d) n

/-- datetime + timedelta(days=30): none models the OverflowError raised
    when the result exceeds datetime.max (year 9999). -/
def addDays30 (d : Date) : Option Date :=
  let r := addDaysN d 30
  if r.year ≤ 9999 then some r else none

/-- Zero-padded decimal rendering, as used by strftime %m and %d
    (width 2). -/
def padZero (width n : Nat) : String :=
  let s := toString n
  String.mk (List.replicate (width - s.length) '0') ++ s

/-- strftime("%Y-%m-%d") as the program emits it: %m and %d are
    zero-padded to two digits, while %Y renders the year unpadded (the C
    library prints year 5 as 5, not 0005). -/
def fmtDate (d : Date) : String :=
  toString d.year ++ "-" ++ padZero 2 d.month ++ "-" ++ padZero 2 d.day

/-- Splitting a character list at every dash, as str.split("-") would. -/
def splitDash : List Char → List (List Char)
  | [] => [[]]
  | c :: rest =>
    if c = '-' then [] :: splitDash rest
    else match splitDash rest with
      | part :: parts => (c :: part) :: parts
      | [] => [[c]]

def digitsValAux : List Char → Nat → Option Nat
  | [], acc => some acc
  | c :: rest, acc =>
    if c.isDigit then digitsValAux rest (acc * 10 + (c.toNat - 48)) else none

/-- Decimal value of a non-empty all-digit character list. -/
def digitsVal : List Char → Option Nat
  | [] => none
  | l => digitsValAux l 0

/-- datetime.strptime(s, "%Y-%m-%d") as a partial function: three
    dash-separated all-digit components (exactly four digits of year, as
    the strptime %Y pattern requires, and one or two digits of month and
    day), which must form a real calendar date within the datetime range;
    none models the ValueError raised otherwise. -/
def parseDate (s : String) : Option Date :=
  match splitDash s.data with
  | [ys, ms, ds] =>
    if ys.length = 4 ∧ ms.length ≤ 2 ∧ ds.length ≤ 2 then
      match digitsVal ys, digitsVal ms, digitsVal ds with
      | some y, some m, some d =>
        if 1 ≤ y ∧ y ≤ 9999 ∧ 1 ≤ m ∧ m ≤ 12 ∧ 1 ≤ d ∧ d ≤ daysInMonth y m then
          some { year := y, month := m, day := d }
        else none
      | _, _, _ => none
    else none
  | _ => none

/-- The end-date defaulting step of get_calendar: parse the start date and
    add thirty days, propagating the exception (as its message) when the
    start date does not parse or the sum leaves the datetime range. -/
def computeEndDate (start_date : String) : Except String String :=
  match parseDate start_date with
  | none => .error ("time data " ++ start_date ++ " does not match format %Y-%m-%d")
  | some d =>
    match addDays30 d with
    | none => .error "date value out of range"
    | some d2 => .ok (fmtDate d2)

structure CalendarEntry where
  id : Option Int
  title : Option String
  year : Option Int
  status : Option String
  monitored : Option Bool
  has_file : Option Bool
  physical_release : Option String
  digital_release : Option String
  in_cinemas : Option String
  quality_profile : Option String
  overview : String

structure CalendarPayload where
  date_range : String
  movies_count : Nat
  movies : List CalendarEntry

/-- Reshaping of one calendar movie inside get_calendar. -/
def processCalendarMovie (movie : Movie) : CalendarEntry :=
  { id := movie.id,
    title := movie.title,
    year := movie.year,
    status := movie.status,
    monitored := movie.monitored,
    has_file := movie.hasFile,
    physical_release := movie.physicalRelease,
    digital_release := movie.digitalRelease,
    in_cinemas := movie.inCinemas,
    quality_profile := (movie.qualityProfile.getD { name := none }).name,
    overview := pyTruncate (movie.overview.getD "") 150 }

/-- The get_calendar tool. today is the ambient clock (datetime.now()). A
    missing or empty start_date defaults to today; a missing or empty
    end_date is start plus thirty days (raising inside the handler when the
    start does not parse, before any upstream call). The second component
    is the list of upstream requests issued. -/
def get_calendar (api : String → Except String (List Movie)) (today : Date)
    (start_date : Option String) (end_date : Option String) :
    ToolResult CalendarPayload × List Request :=
  let start_dateV : String := match start_date with
    | some s => if s == "" then fmtDate today else s
    | none => fmtDate today
  let end_dateE : Except String String := match end_date with
    | some e => if e == "" then computeEndDate start_dateV else .ok e
    | none => computeEndDate start_dateV
  match end_dateE with
  | .error e => (.err e, [])
  | .ok end_dateV =>
    let req : Request := { endpoint := "calendar?start=" ++ start_dateV ++ "&end=" ++ end_dateV,
                           method := "GET" }
    match api req.endpoint with
    | .error e => (.err e, [req])
    | .ok calendar =>
      let processed_calendar := calendar.map processCalendarMovie
      (.ok { date_range := start_dateV ++ " to " ++ end_dateV,
             movies_count := processed_calendar.length,
             movies := processed_calendar }, [req])

/- get_system_status -/

/-- dict.get(k) on a JSON object (null when the key is absent; the status
    payload is an object, so other cases do not arise). -/
def jget (j : Json) (k : String) : Json :=
  match j with
  | .obj kvs =>
    match kvs.lookup k with
    | some v => v
    | none => .null
  | _ => .null

structure SystemStatusApi where
  systemStatus : Except String Json
  health : Except String (List Json)
  diskspace : Except String (List Json)

structure SystemStatusPayload where
  system_info : Json
  health_checks : List Json
  disk_space : List Json

/-- The get_system_status tool: three sequential upstream calls flattened
    into one response object; every field is a passthrough of a status
    key. -/
def get_system_status (api : SystemStatusApi) : ToolResult SystemStatusPayload :=
  match api.systemStatus with
  | .error e => .err e
  | .ok status =>
    match api.health with
    | .error e => .err e
    | .ok health =>
      match api.diskspace with
      | .error e => .err e
      | .ok disk_space =>
        .ok { system_info := .obj
                [("version", jget status "version"),
                 ("build_time", jget status "buildTime"),
                 ("is_debug", jget status "isDebug"),
                 ("is_production", jget status "isProduction"),
                 ("is_admin", jget status "isAdmin"),
                 ("is_user_interactive", jget status "isUserInteractive"),
                 ("startup_path", jget status "startupPath"),
                 ("app_data", jget status "appData"),
                 ("os_name", jget status "osName"),
                 ("os_version", jget status "osVersion"),
                 ("is_mono_runtime", jget status "isMonoRuntime"),
                 ("is_mono", jget status "isMono"),
                 ("is_linux", jget status "isLinux"),
                 ("is_windows", jget status "isWindows"),
                 ("mode", jget status "mode"),
                 ("branch", jget status "branch"),
                 ("authentication", jget status "authentication"),
                 ("sqlite_version", jget status "sqliteVersion"),
                 ("migration_version", jget status "migrationVersion"),
                 ("url_base", jget status "urlBase"),
                 ("runtime_version", jget status "runtimeVersion")],
              health_checks := health.map (fun check => .obj
                [("source", jget check "source"),
                 ("type", jget check "type"),
                 ("message", jget check "message"),
                 ("wiki_url", jget check "wikiUrl")]),
              disk_space := disk_space.map (fun disk => .obj
                [("path", jget disk "path"),
                 ("label", jget disk "label"),
                 ("free_space", jget disk "freeSpace"),
                 ("total_space", jget disk "totalSpace")]) }

/- JSON serialization (json.dumps, modelled up to whitespace: the indent
   argument only changes whitespace) -/

/-- JSON string quoting of the keys and string values produced here. -/
def jsonQuote (s : String) : String :=
  "\"" ++ s ++ "\""

mutual

def Json.dumps : Json → String
  | .null => "null"
  | .bool true => "true"
  | .bool false => "false"
  | .num n => toString n
  | .str s => jsonQuote s
  | .arr xs => "[" ++ Json.dumpsList xs ++ "]"
  | .obj kvs => "\x7b" ++ Json.dumpsFields kvs ++ "\x7d"

def Json.dumpsList : List Json → String
  | [] => ""
  | [x] => Json.dumps x
  | x :: xs => Json.dumps x ++ ", " ++ Json.dumpsList xs

def Json.dumpsFields : List (String × Json) → String
  | [] => ""
  | [(k, v)] => jsonQuote k ++ ": " ++ Json.dumps v
  | (k, v) :: kvs => jsonQuote k ++ ": " ++ Json.dumps v ++ ", " ++ Json.dumpsFields kvs

end

/- Encoding of the get_movies and get_wanted_movies result dicts back into
   JSON values, as json.dumps serializes them inside the movie_collection
   resource (dict insertion order preserved). -/

def encodeOptStr : Option String → Json
  | some s => .str s
  | none => .null

def encodeOptInt : Option Int → Json
  | some n => .num n
  | none => .null

def encodeOptBool : Option Bool → Json
  | some b => .bool b
  | none => .null

def encodeGetMoviesFileInfo (fi : GetMoviesFileInfo) : Json :=
  .obj [("relative_path", encodeOptStr fi.relative_path),
        ("size", encodeOptInt fi.size),
        ("quality", encodeOptStr fi.quality)]

def encodeGetMoviesEntry (pm : GetMoviesEntry) : Json :=
  .obj [("id", encodeOptInt pm.id),
        ("title", encodeOptStr pm.title),
        ("year", encodeOptInt pm.year),
        ("status", encodeOptStr pm.status),
        ("monitored", encodeOptBool pm.monitored),
        ("has_file", .bool pm.has_file),
        ("quality_profile", encodeOptStr pm.quality_profile),
        ("size_on_disk", .num pm.size_on_disk),
        ("overview", .str pm.overview),
        ("file_info", match pm.file_info with
          | some fi => encodeGetMoviesFileInfo fi
          | none => .null)]

def encodeGetMoviesResult : ToolResult GetMoviesPayload → Json
  | .ok p => .obj [("success", .bool true),
                   ("total_count", .num p.total_count),
                   ("movies", .arr (p.movies.map encodeGetMoviesEntry))]
  | .err e => .obj [("error", .str e)]

def encodeWantedEntry (pm : WantedEntry) : Json :=
  .obj [("id", encodeOptInt pm.id),
        ("title", encodeOptStr pm.title),
        ("year", encodeOptInt pm.year),
        ("status", encodeOptStr pm.status),
        ("quality_profile", encodeOptStr pm.quality_profile),
        ("size_on_disk", encodeOptInt pm.size_on_disk),
        ("overview", .str pm.overview),
        ("tmdb_id", encodeOptInt pm.tmdb_id),
        ("imdb_id", encodeOptStr pm.imdb_id)]

def encodeWantedResult : ToolResult WantedPayload → Json
  | .ok p => .obj [("success", .bool true),
                   ("total_records", .num p.total_records),
                   ("page", .num p.page),
                   ("wanted_movies", .arr (p.wanted_movies.map encodeWantedEntry))]
  | .err e => .obj [("error", .str e)]

/-- The serialization step of the movie_collection resource: dump the
    result when it carries success, otherwise dump an object with only the
    error field. -/
def renderMoviesResult (r : ToolResult GetMoviesPayload) : String :=
  match r with
  | .ok p => (encodeGetMoviesResult (.ok p)).dumps
  | .err e => (Json.obj [("error", .str e)]).dumps

def renderWantedResult (r : ToolResult WantedPayload) : String :=
  match r with
  | .ok p => (encodeWantedResult (.ok p)).dumps
  | .err e => (Json.obj [("error", .str e)]).dumps

/-- The movie_collection resource: dispatch on the filter string, falling
    back to the unfiltered get_movies call for any other filter value, and
    serialize the result as JSON text. The oracles are the upstream
    responses seen by the inner get_movies and get_wanted_movies calls
    (get_wanted_movies is invoked with its default pagination). -/
def movie_collection (moviesResp : Except String (List Movie))
    (wantedResp : Except String WantedResp) (filter : String) : String :=
  if filter == "wanted" then
    renderWantedResult (get_wanted_movies wantedResp 1 20)
  else if filter == "monitored" then
    renderMoviesResult (get_movies moviesResp (some true) none none)
  else if filter == "unmonitored" then
    renderMoviesResult (get_movies moviesResp (some false) none none)
  else
    renderMoviesResult (get_movies moviesResp none none none)

/- Helper lemmas -/

theorem pyTruncate_length_le (s : String) (n : Nat) :
    (pyTruncate s n).length ≤ n + 3 := by
  unfold pyTruncate
  split
  · rw [String.length_append]
    have h1 : (pySlice s n).length = (s.data.take n).length := rfl
    have h2 : ("..." : String).length = 3 := rfl
    rw [h1, h2, List.length_take]
    have := Nat.min_le_left n s.data.length
    omega
  · omega

theorem pairwise_descKey_sort_take {α : Type} (key : α → Int) (l : List α) (n : Nat) :
    ((l.mergeSort (fun a b => decide (key b ≤ key a))).take n).Pairwise
      (fun a b => key b ≤ key a) := by
  have hs := @List.sorted_mergeSort _ (fun a b => decide (key b ≤ key a))
    (fun a b c hab hbc => by simp only [decide_eq_true_eq] at *; omega)
    (fun a b => by simp only [Bool.or_eq_true, decide_eq_true_eq]; omega) l
  have ht := List.Pairwise.sublist (List.take_sublist n _) hs
  exact ht.imp (fun h => by simpa using h)

theorem renderMoviesResult_eq (r : ToolResult GetMoviesPayload) :
    renderMoviesResult r = (encodeGetMoviesResult r).dumps := by
  cases r <;> rfl

/- Claim theorems -/

/-- Claim C3: for every queue item id and every action string outside
    remove, retry and ignore, manage_download_queue returns a result with
    an error field and issues zero upstream requests: the validation
    failure is detected before any call. -/
theorem claim3_invalid_action_no_upstream_call
    (api : Request → Except String Json) (queue_id : Int) (action : String)
    (remove_from_client : Bool)
    (h1 : action ≠ "remove") (h2 : action ≠ "retry") (h3 : action ≠ "ignore") :
    manage_download_queue api queue_id action remove_from_client
      = (.err ("Invalid action: " ++ action ++
          ". Use \x27remove\x27, \x27retry\x27, or \x27ignore\x27"), []) := by
  unfold manage_download_queue
  rw [if_neg (by simp [h1]), if_neg (by simp [h2]), if_neg (by simp [h3])]

/-- Witness for claim C3 at the concrete input of the spec example: queue
    id 7 and the unrecognized action bogus. -/
theorem claim3_witness :
    manage_download_queue (fun _ => Except.ok Json.null) 7 "bogus" false
      = (.err "Invalid action: bogus. Use \x27remove\x27, \x27retry\x27, or \x27ignore\x27", []) :=
  claim3_invalid_action_no_upstream_call (fun _ => Except.ok Json.null) 7 "bogus" false
    (by decide) (by decide) (by decide)

/-- Agreement of the results of the ignore and remove actions: identical
    outcome and payload except for the echoed action name. -/
def queueResultsAgree :
    ToolResult QueueActionPayload → ToolResult QueueActionPayload → Prop
  | .ok p1, .ok p2 =>
    p1.action = "ignore" ∧ p2.action = "remove"
      ∧ p1.queue_id = p2.queue_id ∧ p1.result = p2.result
  | .err e1, .err e2 => e1 = e2
  | _, _ => False

/-- Claim C10: for actions test, update and delete with indexer_id equal
    to 0, manage_indexers returns the validation error result and issues
    zero upstream requests: the truthiness guard treats id 0 like an
    absent id. -/
theorem claim10_indexer_id_zero_is_missing
    (api : IndexersApi) (indexer_data : Option Json) :
    manage_indexers api "test" (some 0) indexer_data
        = (.err "Invalid action or missing required parameters", [])
  ∧ manage_indexers api "update" (some 0) indexer_data
        = (.err "Invalid action or missing required parameters", [])
  ∧ manage_indexers api "delete" (some 0) indexer_data
        = (.err "Invalid action or missing required parameters", []) :=
  ⟨rfl, rfl, rfl⟩

/-- Claim C8: for every queue item id, action ignore issues exactly the
    same upstream request as action remove with remove_from_client =
    false, namely a DELETE on the queue item with removeFromClient=false;
    ignore issues this request whatever remove_from_client is, and the two
    results agree, differing only in the echoed action name. -/
theorem claim8_ignore_is_remove_without_client
    (api : Request → Except String Json) (queue_id : Int)
    (remove_from_client : Bool) :
    (manage_download_queue api queue_id "ignore" remove_from_client).snd
        = (manage_download_queue api queue_id "remove" false).snd
  ∧ (manage_download_queue api queue_id "ignore" remove_from_client).snd
        = [{ endpoint := "queue/" ++ toString queue_id ++ "?removeFromClient=false",
             method := "DELETE" }]
  ∧ queueResultsAgree
      (manage_download_queue api queue_id "ignore" remove_from_client).fst
      (manage_download_queue api queue_id "remove" false).fst := by
  simp only [manage_download_queue, String.append_assoc]
  cases h : api { endpoint := "queue/" ++ (toString queue_id ++ "?removeFromClient=false"),
                  method := "DELETE" } <;>
    simp [h, queueResultsAgree]

/- Constant-failure oracles, modelling a Gateway Client whose first (and
   every) upstream call raises a transport error with message e. -/

def failAddMovieApi (e : String) : AddMovieApi :=
  { movieLookupTmdb := fun _ => .error e, qualityprofileList := .error e,
    rootfolderList := .error e, moviePost := fun _ => .error e }

def failMovieDetailsApi (e : String) : MovieDetailsApi :=
  { movieGet := .error e, historyGet := .error e }

def failSystemDefaultsApi (e : String) : SystemDefaultsApi :=
  { qualityprofileList := .error e, rootfolderList := .error e }

def failIndexersApi (e : String) : IndexersApi :=
  { indexerList := .error e, indexerTest := fun _ => .error e,
    indexerAdd := fun _ => .error e, indexerUpdate := fun _ _ => .error e,
    indexerDelete := fun _ => .error e }

def failSystemStatusApi (e : String) : SystemStatusApi :=
  { systemStatus := .error e, health := .error e, diskspace := .error e }

/-- Claim C1: for every tool, all arguments and a Gateway Client whose
    calls raise a transport error, the handler returns the error converted
    into the err side of the result envelope (never a raised exception):
    for the tools without pre-call validation the result is exactly err e,
    and for the two tools with a validation branch the result is an error
    envelope for every action string. The envelope shape itself (success
    payload or error message, never anything else) is the ToolResult type
    every handler returns. -/
theorem claim1_transport_errors_become_error_envelope (e : String) :
    (∀ q y, search_movies (fun _ => .error e) q y = .err e)
  ∧ (∀ mid qp rfp mon soa, (add_movie (failAddMovieApi e) mid qp rfp mon soa).fst = .err e)
  ∧ (∀ mon st qp, get_movies (.error e) mon st qp = .err e)
  ∧ (∀ mid incf inch, get_movie_details (failMovieDetailsApi e) mid incf inch = .err e)
  ∧ (∀ mid sb, search_movie_releases (.error e) mid sb = .err e)
  ∧ (∀ g mid, download_release (fun _ => .error e) g mid = .err e)
  ∧ (∀ p ps srt, get_download_queue (fun _ => .error e) p ps srt = .err e)
  ∧ (∀ qid act rfc, ((manage_download_queue (fun _ => .error e) qid act rfc).fst).isErr = true)
  ∧ (get_system_defaults (failSystemDefaultsApi e) = .err e)
  ∧ (∀ p ps, get_wanted_movies (.error e) p ps = .err e)
  ∧ (∀ act ido idata, ((manage_indexers (failIndexersApi e) act ido idata).fst).isErr = true)
  ∧ (∀ today sd ed, ((get_calendar (fun _ => .error e) today sd ed).fst).isErr = true)
  ∧ (get_system_status (failSystemStatusApi e) = .err e) := by
  refine ⟨fun q y => rfl, fun mid qp rfp mon soa => rfl, fun mon st qp => rfl,
    fun mid incf inch => rfl, fun mid sb => rfl, fun g mid => rfl,
    fun p ps srt => rfl, ?_, rfl, fun p ps => rfl, ?_, ?_, rfl⟩
  · intro qid act rfc
    unfold manage_download_queue
    split
    · rfl
    · split
      · rfl
      · split <;> rfl
  · intro act ido idata
    unfold manage_indexers
    split
    · rfl
    · split
      · rfl
      · split
        · rfl
        · split
          · rfl
          · split <;> rfl
  · intro today sd ed
    simp only [get_calendar]
    repeat' split
    all_goals rfl

/-- Membership in a conditionally filtered list. -/
theorem mem_ite_filter {α : Type} {l : List α} {m : α} {c : Bool} {p : α → Bool}
    (hm : m ∈ (if c = true then l.filter p else l)) :
    m ∈ l ∧ (c = true → p m = true) := by
  by_cases hc : c = true
  · rw [if_pos hc] at hm
    have h := List.mem_filter.1 hm
    exact ⟨h.1, fun _ => h.2⟩
  · rw [if_neg hc] at hm
    exact ⟨hm, fun h => absurd h hc⟩

def cexMovie : Movie :=
  { emptyMovie with status := some "released", qualityProfileId := some 1 }

/-- Claim C2 counterexample: with the empty string provided as the status
    filter, get_movies skips the filter (Python truthiness) and returns a
    movie whose status, released, does not match the provided value. -/
theorem claim2_counterexample :
    moviesOf (get_movies (Except.ok [cexMovie]) none (some "") none)
        = [processGetMovie cexMovie]
  ∧ (processGetMovie cexMovie).status = some "released"
  ∧ ¬ (∀ pm ∈ moviesOf (get_movies (Except.ok [cexMovie]) none (some "") none),
        pm.status = some "") := by
  refine ⟨rfl, rfl, fun h => ?_⟩
  have hm := h (processGetMovie cexMovie) (List.mem_singleton_self _)
  exact absurd hm (by decide)

/-- Claim C2 (amended): for every provided filter whose value is truthy
    for its guard (any monitored flag, a non-empty status, a non-zero
    quality-profile id), every returned movie is the reshaping of an
    upstream movie that matches all such provided filters exactly,
    conjoined. -/
theorem claim2_truthy_filters_conjoined
    (ms : List Movie) (monitored : Option Bool) (status : Option String)
    (quality_profile_id : Option Int)
    (hst : ∀ s, status = some s → s ≠ "")
    (hqp : ∀ q, quality_profile_id = some q → q ≠ 0) :
    ∀ pm ∈ moviesOf (get_movies (.ok ms) monitored status quality_profile_id),
      ∃ m, m ∈ ms ∧ pm = processGetMovie m
        ∧ (∀ b, monitored = some b → m.monitored = some b)
        ∧ (∀ s, status = some s → m.status = some s)
        ∧ (∀ q, quality_profile_id = some q → m.qualityProfileId = some q) := by
  intro pm hpm
  simp only [get_movies, moviesOf] at hpm
  obtain ⟨m, hm, rfl⟩ := List.mem_map.1 hpm
  obtain ⟨hm2, hq3⟩ := mem_ite_filter hm
  obtain ⟨hm1, hs2⟩ := mem_ite_filter hm2
  have hmon : m ∈ ms ∧ (∀ b, monitored = some b → m.monitored = some b) := by
    cases monitored with
    | none => exact ⟨hm1, fun b hb => by cases hb⟩
    | some mon =>
      have h := List.mem_filter.1 hm1
      exact ⟨h.1, fun b hb => by cases hb; simpa using h.2⟩
  refine ⟨m, hmon.1, rfl, hmon.2, ?_, ?_⟩
  · intro s hs
    subst hs
    have hc : optStrTruthy (some s) = true := by
      simp [optStrTruthy, bne_iff_ne]
      exact hst s rfl
    simpa using hs2 hc
  · intro q hq
    subst hq
    have hc : optIntTruthy (some q) = true := by
      simp [optIntTruthy, bne_iff_ne]
      exact hqp q rfl
    simpa using hq3 hc

def wMovie : Movie :=
  { emptyMovie with
      status := some "released", monitored := some true, qualityProfileId := some 2 }

/-- Witness for claim C2 at a singleton library and all three filters
    provided with truthy values. -/
theorem claim2_witness :
    ∃ m, m ∈ [wMovie] ∧ processGetMovie wMovie = processGetMovie m
      ∧ (∀ b, (some true : Option Bool) = some b → m.monitored = some b)
      ∧ (∀ s, (some "released" : Option String) = some s → m.status = some s)
      ∧ (∀ q, (some 2 : Option Int) = some q → m.qualityProfileId = some q) :=
  claim2_truthy_filters_conjoined [wMovie] (some true) (some "released") (some 2)
    (fun s hs => by cases hs; decide) (fun q hq => by cases hq; decide)
    (processGetMovie wMovie)
    (by
      have h : moviesOf (get_movies (Except.ok [wMovie]) (some true) (some "released") (some 2))
          = [processGetMovie wMovie] := rfl
      rw [h]
      exact List.mem_singleton_self _)

/-- Claim C4: for every successful search_movies call and every upstream
    lookup list, the returned movie list is the reshaping of the first ten
    results (so has length at most 10) and every overview has length at
    most 203: overviews longer than 200 characters are cut to their first
    200 characters plus an ellipsis, shorter ones are unchanged. -/
theorem claim4_search_caps_and_truncates
    (ms : List Movie) (query : String) (year : Option Int) :
    ∃ p, search_movies (fun _ => Except.ok ms) query year = .ok p
      ∧ p.movies = (ms.take 10).map processSearchMovie
      ∧ p.movies.length ≤ 10
      ∧ (∀ pm ∈ p.movies, pm.overview.length ≤ 203)
      ∧ (∀ m : Movie, (processSearchMovie m).overview
          = (if (m.overview.getD "").length > 200
             then pySlice (m.overview.getD "") 200 ++ "..."
             else m.overview.getD "")) := by
  refine ⟨_, rfl, rfl, ?_, ?_, fun m => rfl⟩
  · rw [List.length_map, List.length_take]
    exact Nat.min_le_left _ _
  · intro pm hpm
    obtain ⟨m, hmem, rfl⟩ := List.mem_map.1 hpm
    have h := pyTruncate_length_le (m.overview.getD "") 200
    simpa using h

/-- Witness for claim C4 at the concrete query of the spec example. -/
theorem claim4_witness :
    ∃ p, search_movies (fun _ => Except.ok [wMovie]) "Inception" none = .ok p
      ∧ p.movies = ([wMovie].take 10).map processSearchMovie
      ∧ p.movies.length ≤ 10
      ∧ (∀ pm ∈ p.movies, pm.overview.length ≤ 203)
      ∧ (∀ m : Movie, (processSearchMovie m).overview
          = (if (m.overview.getD "").length > 200
             then pySlice (m.overview.getD "") 200 ++ "..."
             else m.overview.getD "")) :=
  claim4_search_caps_and_truncates [wMovie] "Inception" none

/-- Claim C5: for every successful search_movie_releases call, sorting by
    seeders yields a returned list of length at most 20 sorted descending
    by seeder count with a missing count weighing 0; likewise for size on
    the size field; and for quality the returned list is the image of an
    upstream release list sorted descending by the nested quality id. -/
theorem claim5_releases_sorted_desc_capped (rs : List Release) (movie_id : Int) :
    (∃ p, search_movie_releases (.ok rs) movie_id (some "seeders") = .ok p
       ∧ p.releases.length ≤ 20
       ∧ p.releases.Pairwise (fun a b => b.seeders.getD 0 ≤ a.seeders.getD 0))
  ∧ (∃ p, search_movie_releases (.ok rs) movie_id (some "size") = .ok p
       ∧ p.releases.length ≤ 20
       ∧ p.releases.Pairwise (fun a b => b.size.getD 0 ≤ a.size.getD 0))
  ∧ (∃ p, search_movie_releases (.ok rs) movie_id (some "quality") = .ok p
       ∧ p.releases.length ≤ 20
       ∧ ∃ src : List Release, src.Pairwise (fun a b => qualityIdOf b ≤ qualityIdOf a)
           ∧ p.releases = src.map processRelease) := by
  refine ⟨⟨_, rfl, ?_, ?_⟩, ⟨_, rfl, ?_, ?_⟩, ⟨_, rfl, ?_, ⟨_, ?_, rfl⟩⟩⟩
  · rw [List.length_map, List.length_take]
    exact Nat.min_le_left _ _
  · rw [List.pairwise_map]
    exact (pairwise_descKey_sort_take (fun r => r.seeders.getD 0) rs 20).imp (fun h => h)
  · rw [List.length_map, List.length_take]
    exact Nat.min_le_left _ _
  · rw [List.pairwise_map]
    exact (pairwise_descKey_sort_take (fun r => r.size.getD 0) rs 20).imp (fun h => h)
  · rw [List.length_map, List.length_take]
    exact Nat.min_le_left _ _
  · exact pairwise_descKey_sort_take qualityIdOf rs 20

/-- Claim C6: with quality_profile_id omitted and an empty upstream
    profile list the movie is created with profile id 1; with
    root_folder_path omitted and an empty upstream folder list it is
    created with path /movies; when the respective list is non-empty the
    first entry wins; and an empty lookup result yields a not-found error
    with no further upstream call. -/
theorem claim6_add_movie_defaults :
    (∀ (m : Movie) (mid path : String) (mon soa : Bool)
        (rfs : Except String (List RootFolder)) (post : MovieData → Except String Movie),
      (add_movie { movieLookupTmdb := fun _ => .ok (some m), qualityprofileList := .ok [],
                   rootfolderList := rfs, moviePost := post } mid none (some path) mon soa).snd
        = [.lookup ("movie/lookup/tmdb?tmdbId=" ++ mid), .qualityprofileList,
           .movieCreate (buildMovieData m 1 path mon soa)])
  ∧ (∀ (m : Movie) (mid : String) (q : Int) (mon soa : Bool)
        (qps : Except String (List QualityProfile)) (post : MovieData → Except String Movie),
      (add_movie { movieLookupTmdb := fun _ => .ok (some m), qualityprofileList := qps,
                   rootfolderList := .ok [], moviePost := post } mid (some q) none mon soa).snd
        = [.lookup ("movie/lookup/tmdb?tmdbId=" ++ mid), .rootfolderList,
           .movieCreate (buildMovieData m q "/movies" mon soa)])
  ∧ (∀ (m : Movie) (mid : String) (p : QualityProfile) (ps : List QualityProfile)
        (r : RootFolder) (rts : List RootFolder) (mon soa : Bool)
        (post : MovieData → Except String Movie),
      (add_movie { movieLookupTmdb := fun _ => .ok (some m),
                   qualityprofileList := .ok (p :: ps),
                   rootfolderList := .ok (r :: rts), moviePost := post } mid none none mon soa).snd
        = [.lookup ("movie/lookup/tmdb?tmdbId=" ++ mid), .qualityprofileList, .rootfolderList,
           .movieCreate (buildMovieData m p.id r.path mon soa)])
  ∧ (∀ (mid : String) (qp : Option Int) (rfp : Option String) (mon soa : Bool)
        (qps : Except String (List QualityProfile)) (rfs : Except String (List RootFolder))
        (post : MovieData → Except String Movie),
      add_movie { movieLookupTmdb := fun _ => .ok none, qualityprofileList := qps,
                  rootfolderList := rfs, moviePost := post } mid qp rfp mon soa
        = (.err ("Movie with TMDB ID " ++ mid ++ " not found"),
           [.lookup ("movie/lookup/tmdb?tmdbId=" ++ mid)])) := by
  refine ⟨?_, ?_, ?_, fun mid qp rfp mon soa qps rfs post => rfl⟩
  · intro m mid path mon soa rfs post
    cases hp : post (buildMovieData m 1 path mon soa) <;>
      simp [add_movie, hp]
  · intro m mid q mon soa qps post
    cases hp : post (buildMovieData m q "/movies" mon soa) <;>
      simp [add_movie, hp]
  · intro m mid p ps r rts mon soa post
    cases hp : post (buildMovieData m p.id r.path mon soa) <;>
      simp [add_movie, hp]

/-- Claim C7 (amended): for every non-empty start_date that strptime
    accepts for %Y-%m-%d (four-digit year, valid calendar date) with no
    end_date, the upstream calendar request carries the provided start and
    an end equal to start plus 30 days as strftime renders it; with
    start_date also omitted, the current date is used as start (and start
    plus 30 days as end). -/
theorem claim7_end_date_is_start_plus_30
    :
    (∀ (api : String → Except String (List Movie)) (today : Date) (s : String) (d d2 : Date),
        parseDate s = some d → addDays30 d = some d2 →
        (get_calendar api today (some s) none).snd
          = [{ endpoint := "calendar?start=" ++ s ++ "&end=" ++ fmtDate d2,
               method := "GET" }])
  ∧ (∀ (api : String → Except String (List Movie)) (today t2 : Date),
        parseDate (fmtDate today) = some today → addDays30 today = some t2 →
        (get_calendar api today none none).snd
          = [{ endpoint := "calendar?start=" ++ fmtDate today ++ "&end=" ++ fmtDate t2,
               method := "GET" }]) := by
  constructor
  · intro api today s d d2 hp ha
    have hs0 : s ≠ "" := by
      intro hseq
      rw [hseq] at hp
      exact Option.noConfusion (show (none : Option Date) = some d from hp)
    have hs : (s == "") = false := beq_eq_false_iff_ne.mpr hs0
    have hce : computeEndDate s = .ok (fmtDate d2) := by
      simp [computeEndDate, hp, ha]
    simp [get_calendar, hs]
    rw [hce]
    cases h : api ("calendar?start=" ++ s ++ "&end=" ++ fmtDate d2) <;> simp [h]
  · intro api today t2 hp ha
    have hce : computeEndDate (fmtDate today) = .ok (fmtDate t2) := by
      simp [computeEndDate, hp, ha]
    simp only [get_calendar]
    rw [hce]
    cases h : api ("calendar?start=" ++ fmtDate today ++ "&end=" ++ fmtDate t2) <;> simp [h]

/-- Claim C7 counterexample: an empty provided start_date is not passed
    through; it is replaced by the current date (Python truthiness treats
    the empty string like an omitted argument). -/
theorem claim7_counterexample :
    (get_calendar (fun _ => Except.ok []) { year := 2024, month := 5, day := 1 }
        (some "") none).snd
      = [{ endpoint := "calendar?start=2024-05-01&end=2024-05-31", method := "GET" }]
  ∧ "2024-05-01" ≠ "" := ⟨rfl, by decide⟩

/-- Witness for claim C7 at the concrete date of the spec example
    (2024-01-01 yielding end 2024-01-31) and at an omitted start. -/
theorem claim7_witness :
    (get_calendar (fun _ => Except.ok []) { year := 2024, month := 7, day := 4 }
        (some "2024-01-01") none).snd
      = [{ endpoint := "calendar?start=2024-01-01&end=2024-01-31", method := "GET" }]
  ∧ (get_calendar (fun _ => Except.ok []) { year := 2024, month := 5, day := 1 }
        none none).snd
      = [{ endpoint := "calendar?start=2024-05-01&end=2024-05-31", method := "GET" }] :=
  ⟨(claim7_end_date_is_start_plus_30.1 (fun _ => Except.ok [])
      { year := 2024, month := 7, day := 4 } "2024-01-01"
      { year := 2024, month := 1, day := 1 } { year := 2024, month := 1, day := 31 }
      (by decide) (by decide)).trans (by decide),
   (claim7_end_date_is_start_plus_30.2 (fun _ => Except.ok [])
      { year := 2024, month := 5, day := 1 } { year := 2024, month := 5, day := 31 }
      (by decide) (by decide)).trans (by decide)⟩

/-- Claim C9: for every filter string other than wanted, monitored and
    unmonitored (any unrecognized string, not only all), the
    movie_collection resource serializes the success result of the
    unfiltered get_movies call, whose movie list is the full upstream list
    reshaped, rather than reporting an invalid-filter error. -/
theorem claim9_unrecognized_filter_returns_full_list
    (ms : List Movie) (wantedResp : Except String WantedResp) (filter : String)
    (h1 : filter ≠ "wanted") (h2 : filter ≠ "monitored") (h3 : filter ≠ "unmonitored") :
    movie_collection (.ok ms) wantedResp filter
      = (encodeGetMoviesResult (get_movies (.ok ms) none none none)).dumps
  ∧ ∃ p, get_movies (.ok ms) none none none = .ok p
      ∧ p.movies = ms.map processGetMovie := by
  constructor
  · unfold movie_collection
    rw [if_neg (by simp [h1]), if_neg (by simp [h2]), if_neg (by simp [h3])]
    exact renderMoviesResult_eq _
  · exact ⟨_, rfl, rfl⟩

/-- Witness for claim C9 at the unrecognized filter string bogus. -/
theorem claim9_witness :
    movie_collection (.ok [wMovie]) (.error "unreachable") "bogus"
      = (encodeGetMoviesResult (get_movies (.ok [wMovie]) none none none)).dumps
  ∧ ∃ p, get_movies (.ok [wMovie]) none none none = .ok p
      ∧ p.movies = [wMovie].map processGetMovie :=
  claim9_unrecognized_filter_returns_full_list [wMovie] (.error "unreachable") "bogus"
    (by decide) (by decide) (by decide)
